import Mathlib

/-!
# Verification of the cui-desktop proxy core

A shallow embedding of the cookie jar, proxy state, upstream pipeline
fragments, static server and desktop API of `src-tauri/src/config.rs` and
`src-tauri/src/proxy.rs`, together with proofs and refutations of the
spec's claims about them.

Rust strings are modelled as `List Char`; Rust byte indices coincide with
character indices on the ASCII data the functions manipulate.  Machine
integers (`i64`, `u64`) are modelled as `Int`/`Nat` with the explicit
`i64` range check that `str::parse::<i64>` performs.
-/

namespace CuiDesktop

/-- Rust strings, modelled as lists of characters. -/
abbrev Str := List Char

/-- Rust `char::is_whitespace` (the Unicode `White_Space` property). -/
def rustIsWhitespace (c : Char) : Bool :=
  c = '\t' || c = '\n' || c.toNat = 0xB || c.toNat = 0xC || c = '\r' ||
  c = ' ' || c.toNat = 0x85 || c.toNat = 0xA0 || c.toNat = 0x1680 ||
  (0x2000 ≤ c.toNat && c.toNat ≤ 0x200A) ||
  c.toNat = 0x2028 || c.toNat = 0x2029 || c.toNat = 0x202F ||
  c.toNat = 0x205F || c.toNat = 0x3000

/-- Rust `str::trim_start`. -/
def trimStart (s : Str) : Str := s.dropWhile rustIsWhitespace

/-- Rust `str::trim_end`. -/
def trimEnd (s : Str) : Str := (s.reverse.dropWhile rustIsWhitespace).reverse

/-- Rust `str::trim`: strip leading and trailing whitespace. -/
def trim (s : Str) : Str := trimEnd (trimStart s)

/-- Rust `str::trim_end_matches('/')`: strip every trailing `'/'`. -/
def trimEndMatchesSlash (s : Str) : Str :=
  (s.reverse.dropWhile (fun c => c = '/')).reverse

/-- Rust `str::split(sep)`: always yields at least one (possibly empty) part. -/
def splitOnChar (sep : Char) : Str → List Str
  | [] => [[]]
  | c :: cs =>
    if c = sep then [] :: splitOnChar sep cs
    else
      match splitOnChar sep cs with
      | [] => [[c]]
      | p :: ps => (c :: p) :: ps

/-- Rust `str::split_once(sep)`: split at the first occurrence of `sep`. -/
def splitOnce (sep : Char) : Str → Option (Str × Str)
  | [] => none
  | c :: cs =>
    if c = sep then some ([], cs)
    else (splitOnce sep cs).map (fun p => (c :: p.1, p.2))

/-- Per-character lowercasing.  Rust `str::to_lowercase` performs Unicode
lowercasing; on the ASCII attribute keywords compared by the cookie code the
two coincide. -/
def toLowerChar (c : Char) : Char :=
  if 65 ≤ c.toNat ∧ c.toNat ≤ 90 then Char.ofNat (c.toNat + 32) else c

/-- Rust `str::to_lowercase`, restricted to per-character (ASCII) lowering. -/
def toLower (s : Str) : Str := s.map toLowerChar

/-- Digits-only parse of a decimal numeral (no sign). -/
def parseNatDigits (s : Str) : Option Nat :=
  if s.isEmpty then none
  else if s.all (fun c => 48 ≤ c.toNat ∧ c.toNat ≤ 57) then
    some (s.foldl (fun a c => a * 10 + (c.toNat - 48)) 0)
  else none

/-- Rust `str::parse::<i64>`: optional sign, decimal digits, `i64` range. -/
def parseI64 (s : Str) : Option Int :=
  match s with
  | '+' :: rest =>
    (parseNatDigits rest).bind
      (fun n => if n ≤ 2 ^ 63 - 1 then some (n : Int) else none)
  | '-' :: rest =>
    (parseNatDigits rest).bind
      (fun n => if n ≤ 2 ^ 63 then some (-(n : Int)) else none)
  | _ =>
    (parseNatDigits s).bind
      (fun n => if n ≤ 2 ^ 63 - 1 then some (n : Int) else none)

/-- Join a list of strings with a separator (Rust `Vec::join`). -/
def joinSep (sep : Str) : List Str → Str
  | [] => []
  | [x] => x
  | x :: xs => x ++ sep ++ joinSep sep xs


/-! ## Cookie jar data model (`config.rs`)

The global `COOKIE_JAR` (a `Vec<CookieEntry>`) and the optional
`COOKIE_FILE` persistence path are modelled together as an explicit
`CookieState`.  `cookieFile = none` models "no persistence path
configured"; `cookieFile = some disk` models a configured path whose
current on-disk contents (as a JSON array of `CookieEntry`) are `disk`.
The wall clock (`SystemTime::now` as Unix seconds) is passed explicitly
as `now : Nat`. -/

/-- `config.rs` `CookieEntry`. -/
structure CookieEntry where
  name : Str
  value : Str
  path : Str
  /-- Expiry time (Unix seconds), 0 = session cookie. -/
  expires_at : Nat
  http_only : Bool
deriving Repr, DecidableEq

/-- The jar plus the persistence file (path configuration and contents). -/
structure CookieState where
  jar : List CookieEntry
  cookieFile : Option (List CookieEntry)
deriving Repr, DecidableEq

/-- `config.rs` `save_cookies`: if a path is configured, write the jar
to disk (serialization failures are logged and ignored; the serde
serialization of this data never fails, so the write is modelled as
always happening when configured). -/
def save_cookies (s : CookieState) : CookieState :=
  match s.cookieFile with
  | none => s
  | some _ => { s with cookieFile := some s.jar }

/-- The retain predicate of `purge_expired`: keep session cookies and
cookies that expire strictly after `now`. -/
def purgeJar (now : Nat) (jar : List CookieEntry) : List CookieEntry :=
  jar.filter (fun c => c.expires_at = 0 || decide (now < c.expires_at))

/-- `config.rs` `purge_expired`: drop expired entries from the jar.
Note: it does not call `save_cookies`. -/
def purge_expired (now : Nat) (s : CookieState) : CookieState :=
  { s with jar := purgeJar now s.jar }

/-- `config.rs` `remove_cookie`: retain entries with a different name,
then persist. -/
def remove_cookie (name : Str) (s : CookieState) : CookieState :=
  save_cookies { s with jar := s.jar.filter (fun c => ¬ (c.name = name)) }

/-- `config.rs` `StoreCookieResult`. -/
structure StoreCookieResult where
  is_secure : Bool
  browser_cookie : Option Str
deriving Repr, DecidableEq

/-- The local mutable attribute variables of `store_cookie` before the
attribute scan: `path="/"`, `expires_at=0`, `http_only=false`,
`has_secure_flag=false`, `has_samesite_none=false`. -/
structure CookieAttrs where
  path : Str
  expires_at : Nat
  http_only : Bool
  has_secure_flag : Bool
  has_samesite_none : Bool
deriving Repr, DecidableEq

/-- Initial attribute values in `store_cookie`. -/
def initAttrs : CookieAttrs :=
  { path := "/".data, expires_at := 0, http_only := false,
    has_secure_flag := false, has_samesite_none := false }

/-- The attribute loop of `store_cookie` over `parts[1..]`.  Returns
`none` when a parseable `Max-Age` attribute with a non-positive value is
hit: the Rust loop then removes the cookie and returns early. -/
def scanAttrs (now : Nat) : List Str → CookieAttrs → Option CookieAttrs
  | [], a => some a
  | part :: rest, a =>
    let trimmed := trim part
    let lower := toLower trimmed
    if "path=".data.isPrefixOf lower then
      scanAttrs now rest { a with path := trim (trimmed.drop 5) }
    else if "max-age=".data.isPrefixOf lower then
      match parseI64 (trim (trimmed.drop 8)) with
      | some secs =>
        if 0 < secs then
          scanAttrs now rest { a with expires_at := now + secs.toNat }
        else none
      | none => scanAttrs now rest a
    else if lower = "httponly".data then
      scanAttrs now rest { a with http_only := true }
    else if lower = "secure".data then
      scanAttrs now rest { a with has_secure_flag := true }
    else if lower = "samesite=none".data then
      scanAttrs now rest { a with has_samesite_none := true }
    else scanAttrs now rest a

/-- The jar upsert of `store_cookie`: replace the first entry with the
same name, otherwise push at the end. -/
def upsert (e : CookieEntry) : List CookieEntry → List CookieEntry
  | [] => [e]
  | c :: cs => if c.name = e.name then e :: cs else c :: upsert e cs

/-- The sanitized browser `Set-Cookie` built by `store_cookie` for a
non-secure cookie: `name=value`, then the original attributes with
`Secure`, `Domain=…` and `SameSite=None` dropped, then `SameSite=Lax`
when the original carried `SameSite=None`, joined with `"; "`. -/
def buildBrowserCookie (name value : Str) (attrParts : List Str)
    (has_samesite_none : Bool) : Str :=
  let kept := attrParts.filterMap (fun part =>
    let lower := toLower (trim part)
    if lower = "secure".data ∨ "domain=".data.isPrefixOf lower ∨
        lower = "samesite=none".data then none
    else some (trim part))
  joinSep "; ".data
    ((name ++ "=".data ++ value) :: kept ++
      (if has_samesite_none then ["SameSite=Lax".data] else []))

/-- `config.rs` `store_cookie`: parse one `Set-Cookie` value, store it in
the jar (or delete on non-positive `Max-Age`), persist, and return the
classification result together with the new state. -/
def store_cookie (now : Nat) (set_cookie : Str) (s : CookieState) :
    StoreCookieResult × CookieState :=
  let parts := splitOnChar ';' set_cookie
  if parts.isEmpty then
    ({ is_secure := false, browser_cookie := none }, s)
  else
    match splitOnce '=' (trim (parts.headD [])) with
    | none => ({ is_secure := false, browser_cookie := none }, s)
    | some (n, v) =>
      let name := trim n
      let value := trim v
      if name.isEmpty then
        ({ is_secure := false, browser_cookie := none }, s)
      else
        match scanAttrs now (parts.drop 1) initAttrs with
        | none =>
          ({ is_secure := false, browser_cookie := none }, remove_cookie name s)
        | some a =>
          let is_secure := a.has_secure_flag ||
            "__Secure-".data.isPrefixOf name || "__Host-".data.isPrefixOf name
          let entry : CookieEntry :=
            { name := name, value := value, path := a.path,
              expires_at := a.expires_at, http_only := a.http_only }
          let s' := save_cookies { s with jar := upsert entry s.jar }
          let browser_cookie :=
            if !is_secure then
              some (buildBrowserCookie name value (parts.drop 1) a.has_samesite_none)
            else none
          ({ is_secure := is_secure, browser_cookie := browser_cookie }, s')

/-- `config.rs` `clear_cookies`: empty the jar and persist. -/
def clear_cookies (s : CookieState) : CookieState :=
  save_cookies { s with jar := [] }

/-- `config.rs` `cookie_count`. -/
def cookie_count (s : CookieState) : Nat := s.jar.length

/-- Association-list map with HashMap insert semantics (replace the
binding of an existing key, else append).  `get_merged_cookies` builds a
`HashMap<String, String>`; its iteration order on serialization is
unspecified, so the merge result is modelled as the map itself. -/
def mapInsert (k v : Str) : List (Str × Str) → List (Str × Str)
  | [] => [(k, v)]
  | (k', v') :: rest =>
    if k' = k then (k, v) :: rest else (k', v') :: mapInsert k v rest

/-- Map lookup. -/
def mapLookup (k : Str) : List (Str × Str) → Option Str
  | [] => none
  | (k', v') :: rest => if k' = k then some v' else mapLookup k rest

/-- The browser-cookie parsing loop of `get_merged_cookies`: split the
`Cookie` header on `';'`, trim, and insert every `name=value` pair. -/
def parseBrowserCookies (header : Str) : List (Str × Str) :=
  if header.isEmpty then []
  else
    (splitOnChar ';' header).foldl (fun m pair =>
      match splitOnce '=' (trim pair) with
      | some p => mapInsert (trim p.1) (trim p.2) m
      | none => m) []

/-- The jar-merge loop of `get_merged_cookies`: overwrite the map entry
for every jar cookie whose `path` is a literal string prefix of
`request_path` (jar wins on conflict). -/
def mergeJarFold (request_path : Str) (jar : List CookieEntry)
    (m : List (Str × Str)) : List (Str × Str) :=
  jar.foldl (fun m c =>
    if c.path.isPrefixOf request_path then mapInsert c.name c.value m else m) m

/-- `config.rs` `get_merged_cookies`: purge expired entries, parse the
browser `Cookie` header, merge the jar over it, and return the resulting
name→value map together with the state mutated by the purge.  (The Rust
function serializes the map as `"n=v; …"` in `HashMap` iteration order.) -/
def get_merged_cookies (now : Nat) (browser_cookie_header request_path : Str)
    (s : CookieState) : List (Str × Str) × CookieState :=
  let s' := purge_expired now s
  (mergeJarFold request_path s'.jar (parseBrowserCookies browser_cookie_header), s')

/-- The entries selected by `get_cookies_header`: the purged jar filtered
by literal path prefix, in insertion order. -/
def cookiesHeaderEntries (now : Nat) (request_path : Str)
    (jar : List CookieEntry) : List CookieEntry :=
  (purgeJar now jar).filter (fun c => c.path.isPrefixOf request_path)

/-- `config.rs` `get_cookies_header`: purge, then join the path-matching
jar entries as `"name=value; …"`; returns the purged state as well. -/
def get_cookies_header (now : Nat) (request_path : Str) (s : CookieState) :
    Str × CookieState :=
  (joinSep "; ".data
    ((cookiesHeaderEntries now request_path s.jar).map
      (fun c => c.name ++ "=".data ++ c.value)),
   purge_expired now s)

/-- Empty state without a configured persistence path. -/
def emptyState : CookieState := { jar := [], cookieFile := none }
/-! ## Proxy state (`config.rs`) -/

/-- `config.rs` `ProxyState`.  `port` is a `u16` in Rust; it is only ever
set from a bound listener port, modelled as `Nat`. -/
structure ProxyState where
  running : Bool
  port : Nat
  server_url : Str
  token : Str
  auth_mode : Str
  dashboard : Str
deriving Repr, DecidableEq

/-- `ProxyState::default()`. -/
def defaultProxyState : ProxyState :=
  { running := false, port := 15099, server_url := [], token := [],
    auth_mode := "openapi".data, dashboard := [] }

/-- Rust `str::starts_with(char)`. -/
def startsWithChar (c : Char) : Str → Bool
  | [] => false
  | x :: _ => x = c

/-- The dashboard normalization inlined in `update_proxy_state`
(`config.rs` lines 59–67): trim, strip trailing `'/'`, keep empty empty,
keep a leading `'/'`, otherwise prepend `'/'`. -/
def normalizeDashboard (dashboard : Str) : Str :=
  let d := trimEndMatchesSlash (trim dashboard)
  if d.isEmpty then []
  else if startsWithChar '/' d then d
  else '/' :: d

/-- `config.rs` `update_proxy_state`: overwrite `server_url`, `token` and
`auth_mode` verbatim and store the normalized dashboard. -/
def update_proxy_state (server_url token auth_mode dashboard : Str)
    (st : ProxyState) : ProxyState :=
  { st with
    server_url := server_url, token := token, auth_mode := auth_mode,
    dashboard := normalizeDashboard dashboard }

/-! ## Upstream pipeline fragments (`proxy.rs` `proxy_request`) -/

/-- `remote_base` in `proxy_request`: the configured `server_url` with
trailing slashes stripped. -/
def remoteBase (st : ProxyState) : Str := trimEndMatchesSlash st.server_url

/-- `local_base` in `proxy_request`: `http://127.0.0.1:<port>`. -/
def localBase (st : ProxyState) : Str :=
  "http://127.0.0.1:".data ++ (toString st.port).data

/-- Index of the first occurrence of `pat` in `s` (Rust str matcher:
the empty pattern matches at index 0). -/
def findMatch (pat : Str) : Str → Option Nat
  | [] => if pat.isEmpty then some 0 else none
  | c :: cs =>
    if pat.isPrefixOf (c :: cs) then some 0
    else (findMatch pat cs).map (· + 1)

/-- Rust `str::replacen(pat, to, 1)`: replace the first occurrence of
`pat` by `to`, if any. -/
def replacen1 (pat rep s : Str) : Str :=
  match findMatch pat s with
  | none => s
  | some i => s.take i ++ rep ++ s.drop (i + pat.length)

/-- The `Location` rewrite of `proxy_request` (lines 260–269), applied to
each `Location` header of a redirect (status in [300, 399]) upstream
response: if the value starts with the upstream base, replace one
occurrence of it with the loopback base; otherwise the header passes
through verbatim. -/
def rewriteLocation (st : ProxyState) (loc : Str) : Str :=
  if (remoteBase st).isPrefixOf loc then
    replacen1 (remoteBase st) (localBase st) loc
  else loc

/-! ## Static server (`proxy.rs` `serve_cui_static`) -/

/-- File-system paths as lists of components (`std::path::PathBuf`);
`Path::starts_with` is a component-wise prefix check. -/
abbrev FsPath := List Str

/-- The file-system operations `serve_cui_static` performs, abstracted:
`canonicalize` (resolving `..`, symlinks; `none` = error, typically
"no such file"), `isFile`, `pathExists` and `readFile` (`none` = read
error). -/
structure Fs where
  canonicalize : FsPath → Option FsPath
  isFile : FsPath → Bool
  pathExists : FsPath → Bool
  readFile : FsPath → Option Str

/-- Rust `str::strip_prefix` specialised to the route prefix, with the
`unwrap_or("")` of the call site. -/
def stripRoutePre (pre s : Str) : Str :=
  if pre.isPrefixOf s then s.drop pre.length else []

/-- `PathBuf::join` with a relative string: the string's `/`-separated
components are appended. -/
def joinPath (base : FsPath) (relative : Str) : FsPath :=
  base ++ splitOnChar '/' relative

/-- The responses `serve_cui_static` can produce, with bodies abstracted:
`served` carries the file finally read and its `Content-Type`. -/
inductive StaticResponse where
  | forbidden
  | notBuilt
  | served (file : FsPath) (mime : Str)
  | readError
deriving Repr, DecidableEq

/-- `path.extension().and_then(|e| e.to_str())` for the final component:
the part after the last `'.'`, if the component has a non-empty stem. -/
def pathExtension (p : FsPath) : Option Str :=
  match p.getLast? with
  | none => none
  | some name =>
    match splitOnChar '.' name with
    | [] => none
    | [_] => none
    | parts => if parts.length = 2 ∧ (parts.headD []).isEmpty then none
               else parts.getLast?

/-- `proxy.rs` `guess_mime`, as a function of the file extension. -/
def guess_mime (ext : Option Str) : Str :=
  match ext with
  | some e =>
    if e = "html".data then "text/html; charset=utf-8".data
    else if e = "js".data ∨ e = "mjs".data then
      "application/javascript; charset=utf-8".data
    else if e = "css".data then "text/css; charset=utf-8".data
    else if e = "json".data then "application/json; charset=utf-8".data
    else if e = "png".data then "image/png".data
    else if e = "jpg".data ∨ e = "jpeg".data then "image/jpeg".data
    else if e = "gif".data then "image/gif".data
    else if e = "svg".data then "image/svg+xml".data
    else if e = "ico".data then "image/x-icon".data
    else if e = "woff".data then "font/woff".data
    else if e = "woff2".data then "font/woff2".data
    else if e = "ttf".data then "font/ttf".data
    else if e = "eot".data then "application/vnd.ms-fontobject".data
    else if e = "wasm".data then "application/wasm".data
    else if e = "map".data then "application/json".data
    else if e = "txt".data then "text/plain; charset=utf-8".data
    else if e = "xml".data then "application/xml; charset=utf-8".data
    else "application/octet-stream".data
  | none => "application/octet-stream".data

/-- The `relative` computation of `serve_cui_static`: strip the
`/__yao_admin_root/` route prefix; empty → `index.html`. -/
def staticRelative (path : Str) : Str :=
  let r := stripRoutePre "/__yao_admin_root/".data path
  if r.isEmpty then "index.html".data else r

/-- The `file_path = cui_dist.join(relative)` computed by `serve_cui_static`. -/
def resolvedStaticPath (path : Str) (cui_dist : FsPath) : FsPath :=
  joinPath cui_dist (staticRelative path)

/-- `cui_dist.canonicalize().unwrap_or_else(|_| cui_dist.clone())`. -/
def bundleRootCanonical (fs : Fs) (cui_dist : FsPath) : FsPath :=
  (fs.canonicalize cui_dist).getD cui_dist

/-- `proxy.rs` `serve_cui_static`: strip the route prefix, resolve and
canonicalize, apply the path-traversal guard (403 when the canonical
path is not within the canonical bundle root), fall back to
`index.html` for missing files and directories (SPA routing), and read
the file.  HTML head-injection on the body is modelled separately by
`staticPrefLookup`. -/
def serve_cui_static (fs : Fs) (path : Str) (cui_dist : FsPath) :
    StaticResponse :=
  let index : FsPath := cui_dist ++ ["index.html".data]
  let canonicalStep : Except StaticResponse FsPath :=
    match fs.canonicalize (resolvedStaticPath path cui_dist) with
    | some p => .ok p
    | none =>
      -- File not found → serve index.html (SPA routing)
      if fs.pathExists index then .ok index else .error .notBuilt
  match canonicalStep with
  | .error r => r
  | .ok canonical =>
    -- Ensure path is within cui_dist
    if ¬ ((bundleRootCanonical fs cui_dist).isPrefixOf canonical) then .forbidden
    else
      let fileStep : Except StaticResponse FsPath :=
        if fs.isFile canonical then .ok canonical
        else if fs.pathExists index then .ok index else .error .notBuilt
      match fileStep with
      | .error r => r
      | .ok f =>
        match fs.readFile f with
        | some _ => .served f (guess_mime (pathExtension f))
        | none => .readError

/-- The preference-cookie lookup `serve_cui_static` performs for HTML
responses (`proxy.rs` lines 500–517): scan the raw jar — without
purging — for entries named `__locale` / `__theme`, emitting one
`Set-Cookie` header per hit and remembering the values for the injected
script. -/
structure PrefLookup where
  locale_value : Str
  theme_value : Str
  setCookies : List Str
deriving Repr, DecidableEq

/-- One step of the `__locale`/`__theme` scan. -/
def prefStep (acc : PrefLookup) (c : CookieEntry) : PrefLookup :=
  if c.name = "__locale".data ∨ c.name = "__theme".data then
    { locale_value := if c.name = "__locale".data then c.value else acc.locale_value,
      theme_value := if c.name = "__theme".data then c.value else acc.theme_value,
      setCookies := acc.setCookies ++
        [c.name ++ "=".data ++ c.value ++
          "; Path=/; Max-Age=31536000; SameSite=Lax".data] }
  else acc

/-- The static server's jar read for HTML injection.  It iterates the
jar as is: no `purge_expired`, no expiry check. -/
def staticPrefLookup (jar : List CookieEntry) : PrefLookup :=
  jar.foldl prefStep { locale_value := [], theme_value := [], setCookies := [] }

/-! ## Desktop API (`proxy.rs` `handle_window_fullscreen`, POST path) -/

/-- A JSON `\x7b"fullscreen":<b>\x7d` body as formatted by the handler. -/
def fullscreenBody (b : Bool) : Str :=
  "\x7b\"fullscreen\":".data ++ (if b then "true".data else "false".data) ++
    "\x7d".data

/-- The literal body `\x7b"fullscreen":false\x7d`. -/
def fullscreenFalseLit : Str := "\x7b\"fullscreen\":false\x7d".data

/-- Responses of the fullscreen handler. -/
structure FullscreenResponse where
  status : Nat
  contentType : Str
  body : Str
deriving Repr, DecidableEq

/-- The POST path of `proxy.rs` `handle_window_fullscreen`, reached once
an app handle is registered and a window was found.  `decode` abstracts
`serde_json::from_slice::<Value>(..).ok().and_then(|v| v["fullscreen"].as_bool())`;
`win` abstracts the native window: after `set_fullscreen(enable)` (whose
error the code discards), `is_fullscreen()` returns `win enable`
(`none` = error, handled by `unwrap_or(enable)`).  The body is read by
`axum::body::to_bytes` with a 256-byte limit; on error (body too large)
`unwrap_or_default()` yields the empty byte string. -/
def handle_window_fullscreen_post (decode : Str → Option Bool)
    (win : Bool → Option Bool) (body : Str) : FullscreenResponse :=
  let body_bytes := if body.length ≤ 256 then body else []
  let enable := (decode body_bytes).getD false
  let is_fs := (win enable).getD enable
  { status := 200, contentType := "application/json".data,
    body := fullscreenBody is_fs }

/-! ## Concrete instances used by witnesses and counterexamples -/

/-- A proxy state as in the spec's redirect scenario:
`server_url="https://srv.example"`, `port=15099`. -/
def srvExampleState : ProxyState :=
  { defaultProxyState with
    server_url := "https://srv.example".data, port := 15099 }

/-- A `__locale` preference entry that expired at Unix second 5. -/
def expiredLocaleEntry : CookieEntry :=
  { name := "__locale".data, value := "zh-cn".data, path := "/".data,
    expires_at := 5, http_only := false }

/-- A state holding only `expiredLocaleEntry`, with a persistence path
configured whose disk contents equal the jar. -/
def expiredLocaleState : CookieState :=
  { jar := [expiredLocaleEntry], cookieFile := some [expiredLocaleEntry] }

/-- A jar entry `token=from_jar` scoped to `/`. -/
def tokenJarEntry : CookieEntry :=
  { name := "token".data, value := "from_jar".data, path := "/".data,
    expires_at := 0, http_only := false }

/-- A state holding only `tokenJarEntry`. -/
def tokenJarState : CookieState := { jar := [tokenJarEntry], cookieFile := none }

/-- A bundle root directory for the static-server witness. -/
def witnessDist : FsPath := ["srv".data, "dist".data]

/-- The canonical form of the escaping path in the static-server witness. -/
def witnessEscaped : FsPath := ["etc".data, "passwd".data]

/-- A tiny file system in which the bundle root canonicalizes to itself
and the `..`-laden request path canonicalizes to a location outside it. -/
def witnessFs : Fs :=
  { canonicalize := fun q =>
      if q = witnessDist then some witnessDist
      else if q = resolvedStaticPath "/__yao_admin_root/../../etc/passwd".data witnessDist then
        some witnessEscaped
      else none,
    isFile := fun _ => false,
    pathExists := fun _ => false,
    readFile := fun _ => none }

/-- A JSON decoder for the fullscreen witness: accepts exactly the
literal `\x7b"fullscreen":false\x7d`. -/
def witnessDecode : Str → Option Bool :=
  fun s => if s = fullscreenFalseLit then some false else none

/-- A window whose `is_fullscreen` reports the requested state. -/
def witnessWin : Bool → Option Bool := fun b => some b

/-- A 300-byte body, exceeding the 256-byte read limit. -/
def witnessLongBody : Str := List.replicate 300 'a'

/-! ## Sanity checks: string primitives and the `config.rs` unit tests -/

example : splitOnChar ';' "a=1; b=2".data = ["a=1".data, " b=2".data] := by decide
example : splitOnce '=' "a=b=c".data = some ("a".data, "b=c".data) := by decide
example : trim "  x y ".data = "x y".data := by decide
example : trimEndMatchesSlash "a//".data = "a".data := by decide
example : toLower "Max-Age=3".data = "max-age=3".data := by decide
example : parseI64 "-12".data = some (-12) := by decide
example : parseI64 "0".data = some 0 := by decide
example : parseI64 "1x".data = none := by decide

example :
    (store_cookie 0 "session=abc123; Path=/; HttpOnly".data emptyState).1 =
      { is_secure := false,
        browser_cookie := some "session=abc123; Path=/; HttpOnly".data } := by
  decide

example :
    (store_cookie 0 "session=abc123; Path=/; HttpOnly".data emptyState).2.jar =
      [{ name := "session".data, value := "abc123".data, path := "/".data,
         expires_at := 0, http_only := true }] := by
  decide

example :
    (store_cookie 0 "__Secure-token=xyz; Path=/; Secure; HttpOnly".data
      emptyState).1 = { is_secure := true, browser_cookie := none } := by
  decide

example :
    (store_cookie 0 "id=42; Path=/; Secure".data emptyState).1.is_secure = true := by
  decide

example :
    (store_cookie 0 "tok=v; Path=/; Domain=example.com; SameSite=None".data
      emptyState).1.browser_cookie =
      some "tok=v; Path=/; SameSite=Lax".data := by
  decide

example :
    cookie_count
      (store_cookie 0 "key=val; Path=/; Max-Age=0".data
        (store_cookie 0 "key=val; Path=/".data emptyState).2).2 = 0 := by
  decide

example :
    (store_cookie 0 "key=new; Path=/".data
      (store_cookie 0 "key=old; Path=/".data emptyState).2).2.jar =
      [{ name := "key".data, value := "new".data, path := "/".data,
         expires_at := 0, http_only := false }] := by
  decide

example :
    (store_cookie 0 "=value; Path=/".data emptyState).2.jar = [] := by
  decide

example :
    mapLookup "a".data
      (get_merged_cookies 0 [] "/api/data".data
        (store_cookie 0 "b=2; Path=/web".data
          (store_cookie 0 "a=1; Path=/api".data emptyState).2).2).1 =
      some "1".data := by
  decide

example :
    mapLookup "b".data
      (get_merged_cookies 0 [] "/api/data".data
        (store_cookie 0 "b=2; Path=/web".data
          (store_cookie 0 "a=1; Path=/api".data emptyState).2).2).1 = none := by
  decide

example :
    mapLookup "token".data
      (get_merged_cookies 0 "token=from_browser".data "/".data
        (store_cookie 0 "token=from_jar; Path=/".data emptyState).2).1 =
      some "from_jar".data := by
  decide

/-! ## Helper lemmas -/

theorem dropWhile_head?_false (p : Char → Bool) :
    ∀ (l : Str) (c : Char), (l.dropWhile p).head? = some c → p c = false := by
  intro l
  induction l with
  | nil => intro c h; simp [List.dropWhile] at h
  | cons a as ih =>
    intro c h
    by_cases hpa : p a = true
    · exact ih c (by simpa [List.dropWhile, hpa] using h)
    · have hpa' : p a = false := by simpa using hpa
      have : a = c := by simpa [List.dropWhile, hpa'] using h
      exact this ▸ hpa'

theorem dropWhile_eq_self (p : Char → Bool) (l : Str)
    (h : ∀ c, l.head? = some c → p c = false) : l.dropWhile p = l := by
  cases l with
  | nil => rfl
  | cons a as => simp [List.dropWhile, h a rfl]

theorem trimStart_eq_self (l : Str)
    (h : ∀ c, l.head? = some c → rustIsWhitespace c = false) :
    trimStart l = l :=
  dropWhile_eq_self _ _ h

theorem trimEnd_eq_self (l : Str)
    (h : ∀ c, l.getLast? = some c → rustIsWhitespace c = false) :
    trimEnd l = l := by
  have step : l.reverse.dropWhile rustIsWhitespace = l.reverse :=
    dropWhile_eq_self _ _ (fun c hc =>
      h c (by rw [List.getLast?_eq_head?_reverse]; exact hc))
  rw [trimEnd, step, List.reverse_reverse]

theorem trimEndMatchesSlash_eq_self (l : Str)
    (h : ∀ c, l.getLast? = some c → c ≠ '/') :
    trimEndMatchesSlash l = l := by
  have step : l.reverse.dropWhile (fun c => c = '/') = l.reverse := by
    apply dropWhile_eq_self
    intro c hc
    simpa using h c (by rw [List.getLast?_eq_head?_reverse]; exact hc)
  rw [trimEndMatchesSlash, step, List.reverse_reverse]

theorem trimEndMatchesSlash_getLast_ne (s : Str) (c : Char)
    (h : (trimEndMatchesSlash s).getLast? = some c) : c ≠ '/' := by
  rw [trimEndMatchesSlash, List.getLast?_eq_head?_reverse,
    List.reverse_reverse] at h
  simpa using dropWhile_head?_false _ _ _ h

theorem getLast?_cons_of_ne_nil (a : Char) (l : Str) (h : l ≠ []) :
    (a :: l).getLast? = l.getLast? := by
  cases l with
  | nil => exact absurd rfl h
  | cons b bs => rfl

/-! ## C9: MIME map for `map` and `json` -/

/-- C9, counterexample: the claim says extension `map` is served as
`application/json; charset=utf-8`, but `guess_mime` returns plain
`application/json` (no charset parameter) for `map`. -/
theorem c9_counterexample_map_mime :
    ¬ (guess_mime (some "map".data) = "application/json; charset=utf-8".data) := by
  decide

/-- C9, amended: `guess_mime` maps extension `json` to
`application/json; charset=utf-8` but maps `map` to plain
`application/json`, without the charset parameter. -/
theorem c9_mime_json_with_charset_map_without :
    guess_mime (some "json".data) = "application/json; charset=utf-8".data ∧
    guess_mime (some "map".data) = "application/json".data := by
  decide

/-! ## C3: `server_url` storage in `update_proxy_state` -/

/-- C3, counterexample: `update_proxy_state` stores `server_url`
verbatim; for the input `"https://srv.example/"` the stored value still
ends with `'/'`, contradicting the claim that the stored `server_url`
has no trailing slash. -/
theorem c3_counterexample_trailing_slash_kept :
    (update_proxy_state "https://srv.example/".data [] [] []
      defaultProxyState).server_url.getLast? = some '/' := by
  decide

/-- C3, amended: `update_proxy_state` stores `server_url` verbatim (no
normalization); the trailing slash is instead stripped at each use site,
as in `remote_base` of `proxy_request`. -/
theorem c3_server_url_stored_verbatim (u t a d : Str) (st : ProxyState) :
    (update_proxy_state u t a d st).server_url = u ∧
    remoteBase (update_proxy_state u t a d st) = trimEndMatchesSlash u :=
  ⟨rfl, rfl⟩

/-! ## C6: `Location` rewrite on redirects -/

theorem findMatch_of_isPrefixOf (pat s : Str) (h : pat.isPrefixOf s = true) :
    findMatch pat s = some 0 := by
  cases s with
  | nil =>
    cases pat with
    | nil => rfl
    | cons a as => simp [List.isPrefixOf] at h
  | cons a as => simp [findMatch, h]

/-- C6: for every proxy state and `Location` value starting with the
upstream base (`server_url` without trailing slash), the rewritten
`Location` is the loopback base `http://127.0.0.1:<port>` followed by
the remainder of the value — a single replacement at the start. -/
theorem c6_location_rewrite (st : ProxyState) (loc : Str)
    (h : (remoteBase st).isPrefixOf loc = true) :
    rewriteLocation st loc = localBase st ++ loc.drop (remoteBase st).length := by
  rw [rewriteLocation, if_pos h, replacen1, findMatch_of_isPrefixOf _ _ h]
  simp

/-- C6, witness: with `server_url="https://srv.example"` and
`port=15099`, upstream `Location: https://srv.example/login` becomes
`http://127.0.0.1:15099/login`. -/
theorem c6_location_rewrite_witness :
    (remoteBase srvExampleState).isPrefixOf "https://srv.example/login".data = true ∧
    rewriteLocation srvExampleState "https://srv.example/login".data =
      "http://127.0.0.1:15099/login".data :=
  ⟨by decide,
   (c6_location_rewrite srvExampleState "https://srv.example/login".data
      (by decide)).trans (by decide)⟩

/-! ## C8: dashboard normalization idempotence -/

/-- C8, counterexample: normalization is not idempotent on every string.
For `"a /"` (whitespace immediately before the trailing slash) one pass
yields `"/a "`, whose trailing space the second pass trims away:
`normalize(normalize("a /")) = "/a" ≠ "/a " = normalize("a /")`. -/
theorem c8_counterexample_not_idempotent :
    ¬ (normalizeDashboard (normalizeDashboard "a /".data) =
        normalizeDashboard "a /".data) := by
  decide

/-- C8, amended: the dashboard normalization is idempotent on every
string whose trimmed form, after stripping trailing slashes, does not
end in a whitespace character (in particular on every input with no
whitespace just before the trailing slashes); and the specific mappings
`"dashboard/" ↦ "/dashboard"`, `"/admin/" ↦ "/admin"`, `"" ↦ ""` hold. -/
theorem c8_normalize_dashboard_idempotent :
    (∀ x : Str,
      (∀ c, (trimEndMatchesSlash (trim x)).getLast? = some c →
        rustIsWhitespace c = false) →
      normalizeDashboard (normalizeDashboard x) = normalizeDashboard x) ∧
    normalizeDashboard "dashboard/".data = "/dashboard".data ∧
    normalizeDashboard "/admin/".data = "/admin".data ∧
    normalizeDashboard [] = [] := by
  refine ⟨?_, by decide, by decide, by decide⟩
  intro x h
  have hslash : ∀ c, (trimEndMatchesSlash (trim x)).getLast? = some c → c ≠ '/' :=
    fun c hc => trimEndMatchesSlash_getLast_ne (trim x) c hc
  by_cases hde : (trimEndMatchesSlash (trim x)).isEmpty = true
  · have hN : normalizeDashboard x = [] := by
      rw [normalizeDashboard, if_pos hde]
    rw [hN]; decide
  · obtain ⟨a, as, hd⟩ :
        ∃ a as, trimEndMatchesSlash (trim x) = a :: as := by
      cases hdm : trimEndMatchesSlash (trim x) with
      | nil => rw [hdm] at hde; exact absurd rfl hde
      | cons a as => exact ⟨a, as, rfl⟩
    rw [hd] at h hslash
    have hN : normalizeDashboard x =
        if startsWithChar '/' (a :: as) = true then a :: as
        else '/' :: a :: as := by
      rw [normalizeDashboard, hd, if_neg (by simp)]
    by_cases hsw : startsWithChar '/' (a :: as) = true
    · rw [hN, if_pos hsw]
      have ha : a = '/' := by simpa [startsWithChar] using hsw
      have htrim : trim (a :: as) = a :: as := by
        rw [trim, trimStart_eq_self]
        · exact trimEnd_eq_self _ h
        · intro c hc
          have : a = c := by simpa using hc
          subst this; subst ha; decide
      rw [normalizeDashboard, htrim, trimEndMatchesSlash_eq_self _ hslash]
      rw [if_neg (by simp), if_pos hsw]
    · rw [hN, if_neg hsw]
      by_cases hanil : as = []
      · subst hanil
        have hlast : (['/', a] : Str).getLast? = some a := rfl
        have htrim : trim ['/', a] = ['/', a] := by
          rw [trim, trimStart_eq_self]
          · exact trimEnd_eq_self _ (by
              intro c hc
              rw [hlast] at hc
              exact h c (by simpa using hc))
          · intro c hc
            have : '/' = c := by simpa using hc
            subst this; decide
        rw [normalizeDashboard, htrim,
          trimEndMatchesSlash_eq_self _ (by
            intro c hc
            rw [hlast] at hc
            exact hslash c (by simpa using hc))]
        rw [if_neg (by simp), if_pos (by simp [startsWithChar])]
      · have hlast : ('/' :: a :: as).getLast? = (a :: as).getLast? := rfl
        have htrim : trim ('/' :: a :: as) = '/' :: a :: as := by
          rw [trim, trimStart_eq_self]
          · exact trimEnd_eq_self _ (by
              intro c hc; rw [hlast] at hc; exact h c hc)
          · intro c hc
            have : '/' = c := by simpa using hc
            subst this; decide
        rw [normalizeDashboard, htrim,
          trimEndMatchesSlash_eq_self _ (by
            intro c hc; rw [hlast] at hc; exact hslash c hc)]
        rw [if_neg (by simp), if_pos (by simp [startsWithChar])]

/-- C8, witness: the amended idempotence applied to `"/admin/"`. -/
theorem c8_normalize_dashboard_idempotent_witness :
    normalizeDashboard (normalizeDashboard "/admin/".data) =
      normalizeDashboard "/admin/".data :=
  c8_normalize_dashboard_idempotent.1 "/admin/".data (by decide)

/-! ## C2: expired entries and jar reads -/

/-- C2, counterexample: the static server's HTML-injection lookup
(`proxy.rs` lines 500–517) iterates the raw jar without purging or
checking expiry.  At time `now = 10`, the `__locale` entry that expired
at Unix second 5 is still used: its value feeds the injected script and
a `Set-Cookie` header is emitted for it. -/
theorem c2_counterexample_static_read_uses_expired :
    expiredLocaleEntry.expires_at ≠ 0 ∧
    expiredLocaleEntry.expires_at ≤ 10 ∧
    (staticPrefLookup [expiredLocaleEntry]).locale_value = "zh-cn".data ∧
    (staticPrefLookup [expiredLocaleEntry]).setCookies =
      ["__locale=zh-cn; Path=/; Max-Age=31536000; SameSite=Lax".data] := by
  decide

/-- C2, amended: the purging reads — `get_merged_cookies` and
`get_cookies_header` — never return an entry with
`expires_at ≠ 0 ∧ expires_at ≤ now`: both consult exactly `purgeJar now`
(the jar after `purge_expired`), from which every such entry is absent;
the static server's `__locale`/`__theme` HTML-injection lookup, however,
reads the raw jar and is not covered. -/
theorem c2_purging_reads_exclude_expired (now : Nat) (s : CookieState)
    (browser_cookie_header request_path : Str) (e : CookieEntry)
    (h0 : e.expires_at ≠ 0) (hle : e.expires_at ≤ now) :
    e ∉ purgeJar now s.jar ∧
    e ∉ cookiesHeaderEntries now request_path s.jar ∧
    (get_merged_cookies now browser_cookie_header request_path s).2.jar =
      purgeJar now s.jar := by
  have hnotin : e ∉ purgeJar now s.jar := by
    intro hmem
    have hpred := List.of_mem_filter hmem
    simp only [Bool.or_eq_true, decide_eq_true_eq] at hpred
    rcases hpred with h1 | h2
    · exact h0 h1
    · omega
  refine ⟨hnotin, ?_, rfl⟩
  intro hmem
  exact hnotin (List.mem_filter.mp hmem).1

/-- C2, witness: the amended exclusion at a concrete expired entry. -/
theorem c2_purging_reads_exclude_expired_witness :
    expiredLocaleEntry ∉ purgeJar 10 expiredLocaleState.jar ∧
    expiredLocaleEntry ∉ cookiesHeaderEntries 10 "/".data expiredLocaleState.jar ∧
    (get_merged_cookies 10 [] "/".data expiredLocaleState).2.jar =
      purgeJar 10 expiredLocaleState.jar :=
  c2_purging_reads_exclude_expired 10 expiredLocaleState [] "/".data
    expiredLocaleEntry (by decide) (by decide)

/-! ## C4: persistence on mutation -/

/-- C4, counterexample: `purge_expired` does not call `save_cookies`.
Starting from a state whose configured file matches the jar, the purge
performed inside `get_merged_cookies` removes the expired entry from the
jar but leaves the old contents on disk, so after the call the disk no
longer holds the jar's new contents. -/
theorem c4_counterexample_purge_not_persisted :
    ¬ ((get_merged_cookies 10 [] "/".data expiredLocaleState).2.cookieFile =
        some (get_merged_cookies 10 [] "/".data expiredLocaleState).2.jar) := by
  decide

/-- C4, amended: the mutations that go through `save_cookies` —
`store_cookie` (both its upsert path and its `Max-Age ≤ 0` deletion
path via `remove_cookie`) and `clear_cookies` — leave the configured
file equal to the jar's new contents (or leave the state untouched on a
parse failure); the jar shrinking done by `purge_expired` (e.g. inside
`get_merged_cookies`) is not persisted. -/
theorem c4_store_and_clear_persist (now : Nat) (raw : Str) (s : CookieState)
    (d : List CookieEntry) (hconf : s.cookieFile = some d) :
    ((store_cookie now raw s).2.cookieFile = some (store_cookie now raw s).2.jar ∨
      (store_cookie now raw s).2 = s) ∧
    (clear_cookies s).cookieFile = some (clear_cookies s).jar := by
  constructor
  · simp only [store_cookie]
    repeat' split
    all_goals
      first
      | exact Or.inr rfl
      | exact Or.inl (by simp [remove_cookie, save_cookies, hconf])
  · simp [clear_cookies, save_cookies, hconf]

/-- C4, witness: the amended persistence law at a concrete state. -/
theorem c4_store_and_clear_persist_witness :
    expiredLocaleState.cookieFile = some [expiredLocaleEntry] ∧
    (((store_cookie 0 "a=1; Path=/".data expiredLocaleState).2.cookieFile =
        some (store_cookie 0 "a=1; Path=/".data expiredLocaleState).2.jar ∨
      (store_cookie 0 "a=1; Path=/".data expiredLocaleState).2 = expiredLocaleState) ∧
    (clear_cookies expiredLocaleState).cookieFile =
      some (clear_cookies expiredLocaleState).jar) :=
  ⟨by decide,
   c4_store_and_clear_persist 0 "a=1; Path=/".data expiredLocaleState
     [expiredLocaleEntry] (by decide)⟩

/-! ## C7: path-traversal guard of the static server -/

/-- C7: whenever the canonicalized form of the resolved request path
exists but lies outside the canonical bundle root (component-wise prefix
check, as `Path::starts_with`), `serve_cui_static` answers 403 Forbidden
and serves nothing. -/
theorem c7_traversal_forbidden (fs : Fs) (path : Str) (cui_dist : FsPath)
    (p : FsPath)
    (hcanon : fs.canonicalize (resolvedStaticPath path cui_dist) = some p)
    (houtside : (bundleRootCanonical fs cui_dist).isPrefixOf p = false) :
    serve_cui_static fs path cui_dist = StaticResponse.forbidden := by
  rw [serve_cui_static]
  simp only [hcanon, houtside]
  simp

/-- C7, witness: the request `/__yao_admin_root/../../etc/passwd`
against a file system in which that path canonicalizes to
`/etc/passwd`, outside the bundle root, yields 403. -/
theorem c7_traversal_forbidden_witness :
    witnessFs.canonicalize
        (resolvedStaticPath "/__yao_admin_root/../../etc/passwd".data witnessDist) =
      some witnessEscaped ∧
    (bundleRootCanonical witnessFs witnessDist).isPrefixOf witnessEscaped = false ∧
    serve_cui_static witnessFs "/__yao_admin_root/../../etc/passwd".data
      witnessDist = StaticResponse.forbidden :=
  ⟨by decide, by decide,
   c7_traversal_forbidden witnessFs "/__yao_admin_root/../../etc/passwd".data
     witnessDist witnessEscaped (by decide) (by decide)⟩

/-! ## C10: the fullscreen POST handler never rejects a body -/

/-- C10: with an app handle registered and a window found, the POST
handler of `/__yao_desktop/window/fullscreen` always answers 200 with a
JSON body carrying the window's resulting fullscreen state; a body
longer than 256 bytes, or one the JSON decoder rejects, is handled
exactly like the literal body `\x7b"fullscreen":false\x7d`.  `decode`
abstracts `serde_json` field extraction; the hypotheses pin the two
facts used about it: the empty slice (the `unwrap_or_default` result
for an oversized body) is rejected, and the false literal decodes to
`false`. -/
theorem c10_fullscreen_post_total (decode : Str → Option Bool)
    (win : Bool → Option Bool) (body : Str)
    (hempty : decode [] = none)
    (hlit : decode fullscreenFalseLit = some false) :
    (handle_window_fullscreen_post decode win body).status = 200 ∧
    (handle_window_fullscreen_post decode win body).body =
      fullscreenBody
        ((win ((decode (if body.length ≤ 256 then body else [])).getD false)).getD
          ((decode (if body.length ≤ 256 then body else [])).getD false)) ∧
    (256 < body.length →
      handle_window_fullscreen_post decode win body =
        handle_window_fullscreen_post decode win fullscreenFalseLit) ∧
    (decode body = none →
      handle_window_fullscreen_post decode win body =
        handle_window_fullscreen_post decode win fullscreenFalseLit) := by
  have hlitlen : fullscreenFalseLit.length ≤ 256 := by decide
  refine ⟨rfl, rfl, ?_, ?_⟩
  · intro hlen
    have hgt : ¬ (body.length ≤ 256) := by omega
    simp [handle_window_fullscreen_post, hgt, hempty, hlit, hlitlen]
  · intro hnone
    by_cases hlen : body.length ≤ 256
    · simp [handle_window_fullscreen_post, hlen, hnone, hlit, hlitlen]
    · simp [handle_window_fullscreen_post, hlen, hempty, hlit, hlitlen]

/-- C10, witness: a 300-byte body is handled as `fullscreen: false` and
still answered 200. -/
theorem c10_fullscreen_post_total_witness :
    witnessDecode [] = none ∧
    witnessDecode fullscreenFalseLit = some false ∧
    (handle_window_fullscreen_post witnessDecode witnessWin witnessLongBody).status
      = 200 :=
  ⟨by decide, by decide,
   (c10_fullscreen_post_total witnessDecode witnessWin witnessLongBody
     (by decide) (by decide)).1⟩

/-! ## C5: jar wins on merge conflicts -/

theorem mapLookup_insert_self (k v : Str) :
    ∀ m : List (Str × Str), mapLookup k (mapInsert k v m) = some v := by
  intro m
  induction m with
  | nil => simp [mapInsert, mapLookup]
  | cons kv rest ih =>
    by_cases hk : kv.1 = k
    · simp [mapInsert, mapLookup, hk]
    · simpa [mapInsert, mapLookup, hk] using ih

theorem mapLookup_insert_other (k k' v : Str) (hne : ¬ (k' = k)) :
    ∀ m : List (Str × Str), mapLookup k (mapInsert k' v m) = mapLookup k m := by
  intro m
  induction m with
  | nil => simp [mapInsert, mapLookup, hne]
  | cons kv rest ih =>
    by_cases hk : kv.1 = k'
    · simp [mapInsert, mapLookup, hk, hne]
    · by_cases hk2 : kv.1 = k
      · have hne2 : ¬ (k = k') := fun h => hne h.symm
        simp [mapInsert, mapLookup, hk, hk2, hne2]
      · simpa [mapInsert, mapLookup, hk, hk2] using ih

/-- Jar entries that never match `(name, path-prefix)` leave the lookup
of that name unchanged through the merge fold. -/
theorem mergeJarFold_lookup_of_no_match (request_path n : Str) :
    ∀ (jar : List CookieEntry) (m : List (Str × Str)),
      (∀ e ∈ jar, ¬ (e.name = n ∧ e.path.isPrefixOf request_path = true)) →
      mapLookup n (mergeJarFold request_path jar m) = mapLookup n m := by
  intro jar
  induction jar with
  | nil => intro m _; rfl
  | cons c rest ih =>
    intro m hno
    have hstep : mergeJarFold request_path (c :: rest) m =
        mergeJarFold request_path rest
          (if c.path.isPrefixOf request_path then mapInsert c.name c.value m
           else m) := rfl
    rw [hstep]
    by_cases hp : c.path.isPrefixOf request_path = true
    · have hcn : ¬ (c.name = n) := fun hcn =>
        hno c (List.mem_cons_self c rest) ⟨hcn, hp⟩
      rw [if_pos hp,
        ih _ (fun e he => hno e (List.mem_cons_of_mem c he)),
        mapLookup_insert_other n c.name c.value hcn]
    · rw [if_neg hp, ih _ (fun e he => hno e (List.mem_cons_of_mem c he))]

/-- If some jar entry matches name and path, then after the merge fold
the map binds the name to a matching jar entry's value. -/
theorem mergeJarFold_jar_wins (request_path n : Str) :
    ∀ (jar : List CookieEntry) (m : List (Str × Str)),
      (∃ e ∈ jar, e.name = n ∧ e.path.isPrefixOf request_path = true) →
      ∃ e ∈ jar, e.name = n ∧ e.path.isPrefixOf request_path = true ∧
        mapLookup n (mergeJarFold request_path jar m) = some e.value := by
  intro jar
  induction jar with
  | nil => rintro m ⟨e, he, _⟩; cases he
  | cons c rest ih =>
    intro m hex
    have hstep : mergeJarFold request_path (c :: rest) m =
        mergeJarFold request_path rest
          (if c.path.isPrefixOf request_path then mapInsert c.name c.value m
           else m) := rfl
    by_cases hrest : ∃ e ∈ rest, e.name = n ∧ e.path.isPrefixOf request_path = true
    · obtain ⟨e, he, hn, hp, hl⟩ := ih _ hrest
      exact ⟨e, List.mem_cons_of_mem c he, hn, hp, by rw [hstep]; exact hl⟩
    · obtain ⟨e, he, hn, hp⟩ := hex
      rcases List.mem_cons.mp he with rfl | hmem
      · refine ⟨e, List.mem_cons_self e rest, hn, hp, ?_⟩
        rw [hstep, if_pos hp,
          mergeJarFold_lookup_of_no_match request_path n rest _
            (fun e' he' hbad => hrest ⟨e', he', hbad⟩),
          hn, mapLookup_insert_self]
      · exact absurd ⟨e, hmem, hn, hp⟩ hrest

/-- C5: for every browser `Cookie` header and request path, and every
name bound in the browser header that also has a jar entry (at read
time, i.e. surviving the purge) whose `path` is a literal string prefix
of the request path, the merged map of `get_merged_cookies` binds that
name to such a jar entry's value — the jar wins over the browser
value. -/
theorem c5_jar_wins_on_conflict (now : Nat)
    (browser_cookie_header request_path : Str) (s : CookieState)
    (n bv : Str)
    (hbrowser : mapLookup n (parseBrowserCookies browser_cookie_header) = some bv)
    (hjar : ∃ e ∈ purgeJar now s.jar,
      e.name = n ∧ e.path.isPrefixOf request_path = true) :
    ∃ e ∈ purgeJar now s.jar, e.name = n ∧
      e.path.isPrefixOf request_path = true ∧
      mapLookup n (get_merged_cookies now browser_cookie_header request_path s).1
        = some e.value :=
  mergeJarFold_jar_wins request_path n (purgeJar now s.jar)
    (parseBrowserCookies browser_cookie_header) hjar

/-- C5, witness: browser sends `token=from_browser`, the jar holds
`token=from_jar` for path `/`; the merged map binds `token` to
`from_jar`. -/
theorem c5_jar_wins_on_conflict_witness :
    ∃ e ∈ purgeJar 0 tokenJarState.jar, e.name = "token".data ∧
      e.path.isPrefixOf "/".data = true ∧
      mapLookup "token".data
        (get_merged_cookies 0 "token=from_browser".data "/".data tokenJarState).1
        = some e.value :=
  c5_jar_wins_on_conflict 0 "token=from_browser".data "/".data tokenJarState
    "token".data "from_browser".data (by decide)
    ⟨tokenJarEntry, by decide, by decide, by decide⟩

/-! ## C1: secure-cookie classification in `store_cookie` -/

theorem splitOnChar_not_empty (sep : Char) (s : Str) :
    (splitOnChar sep s).isEmpty = false := by
  induction s with
  | nil => rfl
  | cons c cs ih =>
    simp only [splitOnChar]
    split
    · rfl
    · split <;> rfl

/-- The attribute loop never clears `has_secure_flag`. -/
theorem scanAttrs_secure_mono (now : Nat) :
    ∀ (l : List Str) (a a' : CookieAttrs),
      scanAttrs now l a = some a' → a.has_secure_flag = true →
      a'.has_secure_flag = true := by
  intro l
  induction l with
  | nil =>
    intro a a' hs h
    simp only [scanAttrs] at hs
    cases hs
    exact h
  | cons part rest ih =>
    intro a a' hs h
    simp only [scanAttrs] at hs
    repeat' split at hs
    all_goals
      first
      | exact Option.noConfusion hs
      | exact ih _ _ hs h
      | exact ih _ _ hs rfl

/-- Stepping the attribute loop over an attribute whose trimmed
lowercase form is `secure` sets `has_secure_flag`. -/
theorem scanAttrs_cons_secure (now : Nat) (part : Str) (rest : List Str)
    (a : CookieAttrs) (hsec : toLower (trim part) = "secure".data) :
    scanAttrs now (part :: rest) a =
      scanAttrs now rest { a with has_secure_flag := true } := by
  simp only [scanAttrs, hsec]
  simp

/-- If some attribute reads `secure` (case-insensitively, trimmed) and
the loop completes, the final `has_secure_flag` is set. -/
theorem scanAttrs_secure_of_mem (now : Nat) :
    ∀ (l : List Str) (a a' : CookieAttrs) (part : Str),
      part ∈ l → toLower (trim part) = "secure".data →
      scanAttrs now l a = some a' → a'.has_secure_flag = true := by
  intro l
  induction l with
  | nil => intro a a' part hmem _ _; cases hmem
  | cons q rest ih =>
    intro a a' part hmem hsec hs
    rcases List.mem_cons.mp hmem with rfl | hmem'
    · rw [scanAttrs_cons_secure now part rest a hsec] at hs
      exact scanAttrs_secure_mono now rest _ _ hs rfl
    · simp only [scanAttrs] at hs
      repeat' split at hs
      all_goals
        first
        | exact Option.noConfusion hs
        | exact ih _ _ _ hmem' hsec hs

/-- C1, counterexample: the claim extends the secure classification to
inputs carrying a non-positive `Max-Age`, but for
`__Secure-a=v; Max-Age=0` the deletion path short-circuits *before* the
secure classification and `store_cookie` returns `is_secure = false`. -/
theorem c1_counterexample_max_age_short_circuits :
    ¬ ((store_cookie 0 "__Secure-a=v; Max-Age=0".data emptyState).1.is_secure
        = true) := by
  decide

/-- C1, amended: for every `Set-Cookie` input that parses to a non-empty
name and whose attribute scan completes (i.e. carries no parseable
`Max-Age ≤ 0`, which would short-circuit into deletion with
`\x7bfalse, none\x7d`), if the name starts with `__Secure-` or
`__Host-`, or some attribute is `Secure` (trimmed, case-insensitive),
then `store_cookie` returns `is_secure = true` and
`browser_cookie = none`. -/
theorem c1_secure_cookie_classified (now : Nat) (set_cookie : Str)
    (s : CookieState) (n v : Str) (a : CookieAttrs)
    (hparse : splitOnce '=' (trim ((splitOnChar ';' set_cookie).headD []))
      = some (n, v))
    (hname : (trim n).isEmpty = false)
    (hscan : scanAttrs now ((splitOnChar ';' set_cookie).drop 1) initAttrs
      = some a)
    (hsec : "__Secure-".data.isPrefixOf (trim n) = true ∨
            "__Host-".data.isPrefixOf (trim n) = true ∨
            ∃ part ∈ (splitOnChar ';' set_cookie).drop 1,
              toLower (trim part) = "secure".data) :
    (store_cookie now set_cookie s).1.is_secure = true ∧
    (store_cookie now set_cookie s).1.browser_cookie = none := by
  have hne : (splitOnChar ';' set_cookie).isEmpty = false :=
    splitOnChar_not_empty ';' set_cookie
  have hflag : (a.has_secure_flag || "__Secure-".data.isPrefixOf (trim n) ||
      "__Host-".data.isPrefixOf (trim n)) = true := by
    rcases hsec with h | h | ⟨part, hmem, hsecp⟩
    · simp [h]
    · simp [h]
    · simp [scanAttrs_secure_of_mem now _ initAttrs a part hmem hsecp hscan]
  simp only [store_cookie, hne, hparse, hname, hscan]
  simp [hflag]

/-- C1, witness: the secure classification at
`__Secure-token=xyz; Path=/; Secure; HttpOnly`. -/
theorem c1_secure_cookie_classified_witness :
    (store_cookie 0 "__Secure-token=xyz; Path=/; Secure; HttpOnly".data
      emptyState).1.is_secure = true ∧
    (store_cookie 0 "__Secure-token=xyz; Path=/; Secure; HttpOnly".data
      emptyState).1.browser_cookie = none :=
  c1_secure_cookie_classified 0
    "__Secure-token=xyz; Path=/; Secure; HttpOnly".data emptyState
    "__Secure-token".data "xyz".data
    { path := "/".data, expires_at := 0, http_only := true,
      has_secure_flag := true, has_samesite_none := false }
    (by decide) (by decide) (by decide) (Or.inl (by decide))

end CuiDesktop
